import Mathlib

/-!
Shallow embedding of the resilient request-delivery layer of the
ai_chuweywebdev repository: the server-side forwarding gateway
(ollama-proxy.js) with its sliding-window rate limiter, and the
client-side endpoint selection / failover / retry controller
(api-connection-utils.js).  Definitions are translated from the
JavaScript source; theorems settle the specification claims.
-/

/-! ## Server side: ollama-proxy.js -/

/-- RATE_LIMIT.windowMs in ollama-proxy.js: 60 * 1000 ms. -/
def rateWindowMs : Int := 60 * 1000

/-- RATE_LIMIT.maxRequests in ollama-proxy.js: 20 requests per window. -/
def rateMaxRequests : Nat := 20

/-- The rate limiting middleware of ollama-proxy.js, for one client key.
The map entry for the client is an optional list of request timestamps
(none models absence from the map; the middleware initialises an absent
entry to the empty list before checking).  Returns the admission decision
and the map entry stored for the client after the middleware ran.
On rejection the middleware returns 429 without calling
requestTracking.set, so the previously stored list is kept as is. -/
def rateLimitCheck (entry : Option (List Int)) (now : Int) : Bool × List Int :=
  let stored := entry.getD []
  let windowStart := now - rateWindowMs
  let requests := stored.filter (fun t => windowStart < t)
  if rateMaxRequests ≤ requests.length then
    (false, stored)
  else
    (true, requests ++ [now])

/-- Runs the rate limiting middleware over a sequence of request times for
one client, starting from a stored entry; returns the admission decisions
in order and the final stored entry. -/
def runRate (entry : Option (List Int)) : List Int → List Bool × List Int
  | [] => ([], entry.getD [])
  | t :: ts =>
    let step := rateLimitCheck entry t
    let rest := runRate (some step.2) ts
    (step.1 :: rest.1, rest.2)

/-- API_ENDPOINTS.local default in ollama-proxy.js. -/
def proxyLocalUrl : String := "http://192.168.1.50:11434/api/generate"

/-- API_ENDPOINTS.production default in ollama-proxy.js. -/
def proxyProductionUrl : String := "https://ollama.mhrpci.site/api/generate"

/-- API_ENDPOINTS of ollama-proxy.js as an association list (object key
insertion order: local, production). -/
def apiEndpointsRegistry : List (String × String) :=
  [("local", proxyLocalUrl), ("production", proxyProductionUrl)]

/-- DEFAULT_ENDPOINT of ollama-proxy.js: production when NODE_ENV is
production, local otherwise. -/
def defaultEndpointKey (isProd : Bool) : String :=
  if isProd then "production" else "local"

/-- JavaScript falsiness of an optional string value (undefined or the
empty string are falsy), as tested by the validation `!model || !prompt`. -/
def jsFalsyStr (v : Option String) : Bool :=
  match v with
  | none => true
  | some s => s = ""

/-- JavaScript `a || b` for an optional string a: b when a is absent or
empty, a otherwise (used for `req.query.endpoint || DEFAULT_ENDPOINT`). -/
def jsOrStr (v : Option String) (d : String) : String :=
  match v with
  | none => d
  | some s => if s = "" then d else s

/-- The body of an inbound POST /api/generate request, restricted to the
fields the gateway inspects, plus the endpoint query parameter. -/
structure GenRequest where
  model : Option String
  prompt : Option String
  endpointQuery : Option String
deriving DecidableEq, Repr

/-- Outcome of the axios.post call to the upstream endpoint, as the catch
block of ollama-proxy.js discriminates it: a 2xx response with data, an
error carrying a response (non-2xx status and an optional error field in
the body), an error with a request but no response (network failure or
timeout), or an error raised before the request was sent. -/
inductive UpstreamOutcome where
  | ok (data : String)
  | errResponse (status : Nat) (errField : Option String)
  | noResponse
  | setupError
deriving DecidableEq, Repr

/-- JSON body of a gateway response, restricted to the fields the gateway
writes. -/
structure ProxyBody where
  error : Option String := none
  message : Option String := none
  status : Option Nat := none
  payload : Option String := none
deriving DecidableEq, Repr

/-- An HTTP response from the gateway: status code and JSON body. -/
structure ProxyResult where
  status : Nat
  body : ProxyBody
deriving DecidableEq, Repr

/-- The catch block of the POST /api/generate handler: maps the upstream
outcome to the gateway response (the success case passes the upstream data
through with status 200). -/
def mapUpstream : UpstreamOutcome → ProxyResult
  | .ok data => ⟨200, { payload := some data }⟩
  | .errResponse st errField =>
      ⟨st, { error := some "API Error",
             message := some (errField.getD "The API returned an error"),
             status := some st }⟩
  | .noResponse =>
      ⟨504, { error := some "Gateway Timeout",
              message := some "The API server is not responding" }⟩
  | .setupError =>
      ⟨500, { error := some "Internal Server Error",
              message := some "An error occurred while processing your request" }⟩

/-- The POST /api/generate pipeline of ollama-proxy.js for one request:
the rate limiting middleware runs first (app.use is registered before the
route), then validation of model and prompt, then endpoint resolution
against API_ENDPOINTS, then the forward whose outcome is `upstream`.
Returns the gateway response, the stored rate-window entry after the
request, and whether the request was forwarded upstream. -/
def handleGenerate (isProd : Bool) (entry : Option (List Int)) (now : Int)
    (req : GenRequest) (upstream : UpstreamOutcome) :
    ProxyResult × List Int × Bool :=
  let rl := rateLimitCheck entry now
  if rl.1 = false then
    (⟨429, { error := some "Too many requests",
             message := some "Please try again later" }⟩, rl.2, false)
  else if jsFalsyStr req.model || jsFalsyStr req.prompt then
    (⟨400, { error := some "Missing parameters",
             message := some "Model and prompt are required" }⟩, rl.2, false)
  else
    let endpointKey := jsOrStr req.endpointQuery (defaultEndpointKey isProd)
    match (apiEndpointsRegistry.lookup endpointKey) with
    | none =>
        (⟨400, { error := some "Invalid endpoint",
                 message := some ("Endpoint \x27" ++ endpointKey ++
                                  "\x27 is not available") }⟩, rl.2, false)
    | some _ => (mapUpstream upstream, rl.2, true)

/-! ## Client side: api-connection-utils.js -/

/-- ApiConfig.endpoints.local in api-connection-utils.js. -/
def localEndpoint : String := "http://192.168.1.50:11434/api/generate"

/-- ApiConfig.endpoints.production in api-connection-utils.js. -/
def productionEndpoint : String := "https://ollama.mhrpci.site/api/generate"

/-- Object.values(ApiConfig.endpoints), in object key insertion order. -/
def endpointsList : List String := [localEndpoint, productionEndpoint]

/-- ApiConfig.settings.retryCount in api-connection-utils.js. -/
def configRetryCount : Nat := 2

/-- The status classes passed to updateConnectionStatus: online, warning
(yellow), offline (red). -/
inductive StatusKind where
  | online
  | warning
  | offline
deriving DecidableEq, Repr

/-- Client-side mutable state touched by api-connection-utils.js: the
sessionStorage apiEndpoint slot (the Session Endpoint Cache) and the
connection-status indicator (class and text written by
updateConnectionStatus). -/
structure ApiState where
  cache : Option String
  status : StatusKind
  statusText : String
deriving DecidableEq, Repr

/-- updateConnectionStatus(status, text): overwrites the status indicator. -/
def updateConnectionStatus (k : StatusKind) (text : String) (s : ApiState) :
    ApiState :=
  { s with status := k, statusText := text }

/-- getApiEndpoint(): if sessionStorage has no (truthy) apiEndpoint entry,
pick local or production by the hostname heuristic (modelled by the
`isLocal` flag) and store it; return the stored entry. -/
def getApiEndpoint (isLocal : Bool) (s : ApiState) : String × ApiState :=
  if s.cache.getD "" = "" then
    let e := if isLocal then localEndpoint else productionEndpoint
    (e, { s with cache := some e })
  else
    (s.cache.getD "", s)

/-- getFallbackEndpoints(): every configured endpoint except the current
primary one (the value getApiEndpoint returns), in registry order. -/
def getFallbackEndpoints (isLocal : Bool) (s : ApiState) :
    List String × ApiState :=
  let g := getApiEndpoint isLocal s
  (endpointsList.filter (fun e => e ≠ g.1), g.2)

/-- The for-loop of tryNextEndpoint over the fallback list: probe each
endpoint in order; on the first successful probe store it in the cache and
stop.  Returns the winning endpoint (if any), the resulting state, and the
list of endpoints probed, in order. -/
def tryLoop (probe : String → Bool) (s : ApiState) :
    List String → Option String × ApiState × List String
  | [] => (none, s, [])
  | e :: rest =>
    if probe e then (some e, { s with cache := some e }, [e])
    else
      let r := tryLoop probe s rest
      (r.1, r.2.1, e :: r.2.2)

/-- tryNextEndpoint(): probe the fallback endpoints in registry order with
a test request (the probe outcome per endpoint is the oracle `probe`); the
first endpoint whose response is ok is stored in the Session Endpoint
Cache and returned; if none succeeds, return the primary endpoint
(getApiEndpoint) with the cache unchanged.  Also returns the list of
endpoints probed. -/
def tryNextEndpoint (isLocal : Bool) (probe : String → Bool) (s : ApiState) :
    String × ApiState × List String :=
  let g := getFallbackEndpoints isLocal s
  let r := tryLoop probe g.2 g.1
  match r.1 with
  | some e => (e, r.2.1, r.2.2)
  | none =>
    let p := getApiEndpoint isLocal r.2.1
    (p.1, p.2, r.2.2)

/-- Outcome of the fetch performed by checkApiStatus: a response with its
ok flag, or a thrown error with its name and message. -/
inductive ProbeOutcome where
  | response (ok : Bool)
  | jsError (name : String) (message : String)
deriving DecidableEq, Repr

/-- JavaScript String.prototype.includes, via splitOn: the pattern occurs
in the string iff splitting on it yields more than one piece. -/
def strIncludes (s pat : String) : Bool :=
  (s.splitOn pat).length ≠ 1

/-- checkApiStatus(): probes the current endpoint.  On an ok response set
status online and return true; on a non-ok response set status warning
(API Limited) and return false; on a thrown error set status offline with
a reason depending on the error (AbortError from the timeout, a message
containing NetworkError, or anything else), fire tryNextEndpoint, and
return false.  The function catches every failure and never throws, which
the model reflects by being a total function. -/
def checkApiStatus (isLocal : Bool) (pr : ProbeOutcome)
    (probeNext : String → Bool) (s : ApiState) : Bool × ApiState :=
  let g := getApiEndpoint isLocal s
  let s1 := updateConnectionStatus .warning "Checking API..." g.2
  match pr with
  | .response true => (true, updateConnectionStatus .online "AI Online" s1)
  | .response false => (false, updateConnectionStatus .warning "API Limited" s1)
  | .jsError name message =>
    let s2 :=
      if name = "AbortError" then
        updateConnectionStatus .offline "Connection Timeout" s1
      else if message ≠ "" && strIncludes message "NetworkError" then
        updateConnectionStatus .offline "Network Error" s1
      else
        updateConnectionStatus .offline "AI Offline" s1
    let t := tryNextEndpoint isLocal probeNext s2
    (false, t.2.1)

/-- A JavaScript error value, reduced to the fields callOllamaApi
inspects: name and message. -/
structure JsError where
  name : String
  message : String
deriving DecidableEq, Repr

/-- The JSON body of a generation response, reduced to the fields
callOllamaApi inspects: the optional error field, and the payload. -/
structure ApiData where
  error : Option String
  payload : String
deriving DecidableEq, Repr

/-- Outcome of one fetch in the main loop of callOllamaApi: either the
fetch threw (network failure, or AbortError from the timeout), or a
response arrived with its ok flag, HTTP status, and parsed JSON body. -/
inductive AttemptResult where
  | fetchErr (e : JsError)
  | response (ok : Bool) (status : Nat) (data : ApiData)
deriving DecidableEq, Repr

/-- The error produced by one main-loop iteration of callOllamaApi, none
on success: a thrown fetch error is caught as is; a non-ok response raises
Error("HTTP error! status: " ++ status); an ok response whose body has an
error field raises Error(data.error). -/
def attemptError : AttemptResult → Option JsError
  | .fetchErr e => some e
  | .response ok st data =>
    if ok then data.error.map (fun m => ⟨"Error", m⟩)
    else some ⟨"Error", "HTTP error! status: " ++ toString st⟩

/-- The parsed data of a successful main-loop iteration (only meaningful
when attemptError is none). -/
def attemptData : AttemptResult → ApiData
  | .fetchErr _ => ⟨none, ""⟩
  | .response _ _ data => data

/-- Network oracle for one callOllamaApi invocation: the outcome of the
i-th main-loop fetch (0-based, at the given endpoint), and the outcome of
each probe fetch of the k-th tryNextEndpoint invocation. -/
structure CallEnv where
  attempt : Nat → String → AttemptResult
  probe : Nat → String → Bool

/-- The options argument of callOllamaApi, fields absent when the caller
omitted them.  Numbers are modelled as rationals. -/
structure CallOptions where
  temperature : Option ℚ := none
  top_p : Option ℚ := none
  max_tokens : Option ℚ := none
  stream : Option Bool := none
deriving DecidableEq, Repr

/-- JavaScript `v || d` for an optional number v: d when v is absent or
falsy (zero), v otherwise. -/
def jsOrNum (v : Option ℚ) (d : ℚ) : ℚ :=
  match v with
  | none => d
  | some x => if x = 0 then d else x

/-- JavaScript `v || d` for an optional boolean v: d when v is absent or
false, v otherwise. -/
def jsOrBool (v : Option Bool) (d : Bool) : Bool :=
  match v with
  | none => d
  | some b => if b then b else d

/-- The request payload built at the top of callOllamaApi. -/
structure RequestBody where
  model : String
  prompt : String
  stream : Bool
  temperature : ℚ
  top_p : ℚ
  max_tokens : ℚ
deriving DecidableEq, Repr

/-- The requestBody construction of callOllamaApi:
stream: options.stream || false, temperature: options.temperature || 0.7,
top_p: options.top_p || 0.9, max_tokens: options.max_tokens || 5000. -/
def buildRequestBody (model prompt : String) (options : CallOptions) :
    RequestBody :=
  { model := model
    prompt := prompt
    stream := jsOrBool options.stream false
    temperature := jsOrNum options.temperature (7/10)
    top_p := jsOrNum options.top_p (9/10)
    max_tokens := jsOrNum options.max_tokens 5000 }

/-- How a callOllamaApi invocation ends: a returned response body, a
rethrown error after exhausting all attempts, or undefined when the while
loop never runs (only possible when maxAttempts is zero). -/
inductive CallResult where
  | ok (data : ApiData)
  | thrown (e : JsError)
  | undef
deriving DecidableEq, Repr

/-- The while loop of callOllamaApi.  `attempts` is the attempt counter,
`k` counts tryNextEndpoint invocations (to index the probe oracle),
`endpoint` the endpoint the next fetch goes to; `fuel` drives the
structural recursion and equals maxAttempts - attempts at the call site,
so fuel running out coincides exactly with the while condition
attempts < maxAttempts turning false (the loop then falls through and the
function returns undefined).  Per iteration: fetch; on success set status
online and return the data; on failure increment attempts, then if
attempts mod retryCount is zero run tryNextEndpoint and set status
warning (Switching endpoints...), else if attempts < maxAttempts set
status warning (Retrying connection...); finally if attempts reached
maxAttempts set status offline (Connection Failed) and rethrow the last
error.  Also returns the list of endpoints fetched by the main loop, in
order. -/
def callLoop (env : CallEnv) (retryCount maxAttempts : Nat) (isLocal : Bool) :
    Nat → Nat → Nat → String → ApiState →
    CallResult × ApiState × List String
  | 0, _, _, _, s => (CallResult.undef, s, [])
  | fuel + 1, attempts, k, endpoint, s =>
    if attempts < maxAttempts then
      match attemptError (env.attempt attempts endpoint) with
      | none =>
          (CallResult.ok (attemptData (env.attempt attempts endpoint)),
           updateConnectionStatus .online "AI Online" s, [endpoint])
      | some e =>
          let next : String × Nat × ApiState :=
            if (attempts + 1) % retryCount = 0 then
              let t := tryNextEndpoint isLocal (env.probe k) s
              (t.1, k + 1,
               updateConnectionStatus .warning "Switching endpoints..." t.2.1)
            else if attempts + 1 < maxAttempts then
              (endpoint, k,
               updateConnectionStatus .warning "Retrying connection..." s)
            else
              (endpoint, k, s)
          if maxAttempts ≤ attempts + 1 then
            (CallResult.thrown e,
             updateConnectionStatus .offline "Connection Failed" next.2.2,
             [endpoint])
          else
            let rest := callLoop env retryCount maxAttempts isLocal
              fuel (attempts + 1) next.2.1 next.1 next.2.2
            (rest.1, rest.2.1, endpoint :: rest.2.2)
    else
      (CallResult.undef, s, [])

/-- callOllamaApi(model, prompt, options): resolves the endpoint, builds
the request body, and runs the retry/failover loop with
maxAttempts = retryCount * 2 (retryCount retries on the primary plus the
same budget after switching to a fallback).  Returns the request body it
would send and the loop outcome (result, final state, endpoints
fetched). -/
def callOllamaApi (retryCount : Nat) (isLocal : Bool) (env : CallEnv)
    (model prompt : String) (options : CallOptions) (s : ApiState) :
    RequestBody × CallResult × ApiState × List String :=
  let g := getApiEndpoint isLocal s
  (buildRequestBody model prompt options,
   callLoop env retryCount (retryCount * 2) isLocal (retryCount * 2) 0 0 g.1 g.2)

/-! ## Helper lemmas: rate limiter -/

/-- The middleware admits a request iff the number of stored timestamps
still inside the window is below the maximum. -/
theorem rateLimit_admit_iff (entry : Option (List Int)) (now : Int) :
    (rateLimitCheck entry now).1 = true ↔
      ((entry.getD []).filter (fun t => now - rateWindowMs < t)).length <
        rateMaxRequests := by
  unfold rateLimitCheck
  by_cases h : rateMaxRequests ≤
      ((entry.getD []).filter (fun t => now - rateWindowMs < t)).length
  · simp [h]
  · simp [h]
    omega

/-- On admission the stored entry becomes the purged list with now
appended. -/
theorem rateLimit_admitted_store (entry : Option (List Int)) (now : Int)
    (h : (rateLimitCheck entry now).1 = true) :
    (rateLimitCheck entry now).2 =
      (entry.getD []).filter (fun t => now - rateWindowMs < t) ++ [now] := by
  unfold rateLimitCheck at h ⊢
  by_cases hc : rateMaxRequests ≤
      ((entry.getD []).filter (fun t => now - rateWindowMs < t)).length
  · simp [hc] at h
  · simp [hc]

/-- On rejection the stored entry is left as it was (the middleware
returns 429 without storing). -/
theorem rateLimit_store_reject (entry : Option (List Int)) (now : Int)
    (h : (rateLimitCheck entry now).1 = false) :
    (rateLimitCheck entry now).2 = entry.getD [] := by
  unfold rateLimitCheck at h ⊢
  by_cases hc : rateMaxRequests ≤
      ((entry.getD []).filter (fun t => now - rateWindowMs < t)).length
  · simp [hc]
  · simp [hc] at h

/-! ## Helper lemmas: endpoint selection and failover -/

/-- With a nonempty cached endpoint, getApiEndpoint is a pure read. -/
theorem getApiEndpoint_read (isLocal : Bool) (s : ApiState) (e0 : String)
    (hc : s.cache = some e0) (he : e0 ≠ "") :
    getApiEndpoint isLocal s = (e0, s) := by
  unfold getApiEndpoint
  simp [hc, he]

/-- After getApiEndpoint runs, the cache holds exactly the returned
endpoint, and that endpoint is nonempty. -/
theorem getApiEndpoint_init (isLocal : Bool) (s : ApiState) :
    ((getApiEndpoint isLocal s).2).cache = some (getApiEndpoint isLocal s).1 ∧
    (getApiEndpoint isLocal s).1 ≠ "" := by
  unfold getApiEndpoint
  by_cases h : s.cache.getD "" = ""
  · cases isLocal <;> simp [h] <;> decide
  · cases hc : s.cache with
    | none => simp [hc] at h
    | some x =>
      simp only [hc, Option.getD_some] at h
      simp [hc, h]

/-- getApiEndpoint touches only the cache: status and text persist. -/
theorem getApiEndpoint_status (isLocal : Bool) (s : ApiState) :
    ((getApiEndpoint isLocal s).2).status = s.status ∧
    ((getApiEndpoint isLocal s).2).statusText = s.statusText := by
  unfold getApiEndpoint
  by_cases h : s.cache.getD "" = "" <;> simp [h]

/-- Closed form of the probing loop of tryNextEndpoint: the first endpoint
in the list that the probe accepts is stored and returned, the probed
prefix being everything up to and including it; if the probe accepts none,
the state is unchanged and the whole list was probed. -/
theorem tryLoop_eq (p : String → Bool) (s : ApiState) (l : List String) :
    tryLoop p s l =
      match l.find? p with
      | some e => (some e, { s with cache := some e },
          l.takeWhile (fun x => !p x) ++ [e])
      | none => (none, s, l) := by
  induction l with
  | nil => rfl
  | cons a t ih =>
    by_cases h : p a
    · simp [tryLoop, h, List.find?_cons_of_pos, List.takeWhile_cons]
    · rw [List.find?_cons_of_neg _ (by simp [h])]
      simp only [tryLoop, h, if_false, ih, List.takeWhile_cons]
      cases ht : t.find? p <;> simp [ht, h]

/-- When the cached endpoint is set, tryNextEndpoint probes exactly the
fallback list (the registry minus the cached endpoint, in registry
order). -/
theorem tryNextEndpoint_eq (isLocal : Bool) (probe : String → Bool)
    (s : ApiState) (e0 : String) (hc : s.cache = some e0) (he : e0 ≠ "") :
    tryNextEndpoint isLocal probe s =
      match (endpointsList.filter (fun x => x ≠ e0)).find? probe with
      | some e => (e, { s with cache := some e },
          (endpointsList.filter (fun x => x ≠ e0)).takeWhile
            (fun x => !probe x) ++ [e])
      | none => (e0, s, endpointsList.filter (fun x => x ≠ e0)) := by
  unfold tryNextEndpoint getFallbackEndpoints
  rw [getApiEndpoint_read isLocal s e0 hc he]
  simp only [tryLoop_eq]
  cases hf : (endpointsList.filter (fun x => x ≠ e0)).find? probe
  · simp [hf, getApiEndpoint_read isLocal s e0 hc he]
  · simp [hf]

/-- When every probe fails, tryNextEndpoint reverts to the cached primary
endpoint and leaves the state untouched. -/
theorem tryNextEndpoint_allFail (isLocal : Bool) (probe : String → Bool)
    (s : ApiState) (e0 : String) (hc : s.cache = some e0) (he : e0 ≠ "")
    (hp : ∀ ep, probe ep = false) :
    tryNextEndpoint isLocal probe s =
      (e0, s, endpointsList.filter (fun x => x ≠ e0)) := by
  rw [tryNextEndpoint_eq isLocal probe s e0 hc he]
  have hf : (endpointsList.filter (fun x => x ≠ e0)).find? probe = none :=
    List.find?_eq_none.mpr (fun x _ => by simp [hp x])
  simp only [hf]

/-- tryNextEndpoint never touches the status indicator. -/
theorem tryNextEndpoint_status (isLocal : Bool) (probe : String → Bool)
    (s : ApiState) :
    ((tryNextEndpoint isLocal probe s).2.1).status = s.status ∧
    ((tryNextEndpoint isLocal probe s).2.1).statusText = s.statusText := by
  unfold tryNextEndpoint getFallbackEndpoints
  simp only [tryLoop_eq]
  obtain ⟨h1, h2⟩ := getApiEndpoint_status isLocal s
  cases hf : (endpointsList.filter
      (fun x => x ≠ (getApiEndpoint isLocal s).1)).find? probe
  · simp only [hf]
    obtain ⟨h3, h4⟩ := getApiEndpoint_status isLocal (getApiEndpoint isLocal s).2
    simp [h3, h4, h1, h2]
  · simp [hf, h1, h2]

/-- With every main-loop fetch failing and every failover probe failing,
the retry loop runs down its whole remaining budget at the cached
endpoint (which never changes, since every failover attempt reverts to
it), ends with status offline (Connection Failed), and rethrows the error
of the last attempt. -/
theorem callLoop_allFail (env : CallEnv) (r : Nat) (isLocal : Bool)
    (e0 : String) (he : e0 ≠ "")
    (hfail : ∀ i ep, attemptError (env.attempt i ep) ≠ none)
    (hprobe : ∀ k ep, env.probe k ep = false) :
    ∀ fuel a k s, s.cache = some e0 → a + fuel = r * 2 → a < r * 2 →
      (callLoop env r (r * 2) isLocal fuel a k e0 s).2.2.length = fuel ∧
      ((callLoop env r (r * 2) isLocal fuel a k e0 s).2.1).status =
        StatusKind.offline ∧
      (callLoop env r (r * 2) isLocal fuel a k e0 s).1 =
        CallResult.thrown
          ((attemptError (env.attempt (r * 2 - 1) e0)).getD ⟨"", ""⟩) := by
  intro fuel
  induction fuel with
  | zero =>
    intro a k s _ hsum hlt
    exfalso
    omega
  | succ fuel ih =>
    intro a k s hc hsum hlt
    obtain ⟨e, he2⟩ : ∃ e, attemptError (env.attempt a e0) = some e := by
      cases hx : attemptError (env.attempt a e0)
      · exact absurd hx (hfail a e0)
      · exact ⟨_, rfl⟩
    have htne := tryNextEndpoint_allFail isLocal (env.probe k) s e0 hc he
      (hprobe k)
    by_cases hterm : r * 2 ≤ a + 1
    · have ha : a = r * 2 - 1 := by omega
      have hfuel : fuel = 0 := by omega
      subst hfuel
      have he2' : attemptError (env.attempt (r * 2 - 1) e0) = some e := by
        rw [← ha]; exact he2
      simp [callLoop, hlt, he2, hterm, htne, updateConnectionStatus, he2']
    · have hlt2 : a + 1 < r * 2 := by omega
      by_cases hmod : (a + 1) % r = 0
      · have hrec := ih (a + 1) (k + 1)
          (updateConnectionStatus .warning "Switching endpoints..." s)
          (by simp [updateConnectionStatus, hc]) (by omega) hlt2
        simp only [callLoop, he2, hlt, if_true, hmod, htne, hterm, if_false,
          hlt2, ite_true, ite_false]
        simp [hrec.1, hrec.2.1, hrec.2.2]
      · have hrec := ih (a + 1) k
          (updateConnectionStatus .warning "Retrying connection..." s)
          (by simp [updateConnectionStatus, hc]) (by omega) hlt2
        simp only [callLoop, he2, hlt, if_true, hmod, hterm, if_false,
          hlt2, ite_true, ite_false]
        simp [hrec.1, hrec.2.1, hrec.2.2]

/-! ## Claims -/

/-- C1: in a generation call in which every attempt on every endpoint
fails permanently (every main-loop fetch yields an error and every
failover probe fails), callOllamaApi performs exactly
retryCount * (number of registry endpoints) attempts (4 with the default
retryCount 2 and the 2 configured endpoints), sets the connection status
to offline, and fails the call by rethrowing the last observed error. -/
theorem c1_permanent_failure_budget (retryCount : Nat) (isLocal : Bool)
    (env : CallEnv) (model prompt : String) (options : CallOptions)
    (s : ApiState) (hr : 1 ≤ retryCount)
    (hfail : ∀ i ep, attemptError (env.attempt i ep) ≠ none)
    (hprobe : ∀ k ep, env.probe k ep = false) :
    ((callOllamaApi retryCount isLocal env model prompt options
        s).2.2.2).length = retryCount * endpointsList.length ∧
    ((callOllamaApi retryCount isLocal env model prompt options
        s).2.2.1).status = StatusKind.offline ∧
    (callOllamaApi retryCount isLocal env model prompt options s).2.1 =
      CallResult.thrown
        ((attemptError (env.attempt (retryCount * 2 - 1)
            (getApiEndpoint isLocal s).1)).getD ⟨"", ""⟩) := by
  obtain ⟨hc, he⟩ := getApiEndpoint_init isLocal s
  have key := callLoop_allFail env retryCount isLocal
    (getApiEndpoint isLocal s).1 he hfail hprobe (retryCount * 2) 0 0
    (getApiEndpoint isLocal s).2 hc (by omega) (by omega)
  have hlen : endpointsList.length = 2 := rfl
  simp only [callOllamaApi, hlen]
  exact ⟨key.1, key.2.1, key.2.2⟩

/-- A network oracle on which every fetch and every probe fails. -/
def c1Env : CallEnv :=
  { attempt := fun _ _ => .fetchErr ⟨"TypeError", "Failed to fetch"⟩
    probe := fun _ _ => false }

/-- Witness for C1: with retryCount 2 on the all-fail oracle, the call
makes 4 attempts, ends offline and rethrows the last error. -/
theorem c1_witness :
    ((callOllamaApi 2 true c1Env "phi:latest" "test" {}
        ⟨none, .warning, ""⟩).2.2.2).length = 2 * endpointsList.length ∧
    ((callOllamaApi 2 true c1Env "phi:latest" "test" {}
        ⟨none, .warning, ""⟩).2.2.1).status = StatusKind.offline ∧
    (callOllamaApi 2 true c1Env "phi:latest" "test" {}
        ⟨none, .warning, ""⟩).2.1 =
      CallResult.thrown
        ((attemptError (c1Env.attempt (2 * 2 - 1)
            (getApiEndpoint true ⟨none, .warning, ""⟩).1)).getD ⟨"", ""⟩) :=
  c1_permanent_failure_budget 2 true c1Env "phi:latest" "test" {}
    ⟨none, .warning, ""⟩ (by decide)
    (fun i ep => by simp [c1Env, attemptError])
    (fun _ _ => rfl)

/-- C2: the rate limiter admits a request iff the number of stored
timestamps strictly inside the window is below the maximum, appending now
and storing the purged list back on admission and not appending on
rejection; concretely, 20 calls at t=0 are all admitted, a 21st call at
t=0 is rejected, and a call at t=61000 is admitted again. -/
theorem c2_rate_limiter_admission (entry : Option (List Int)) (now : Int) :
    ((rateLimitCheck entry now).1 = true ↔
      ((entry.getD []).filter (fun t => now - rateWindowMs < t)).length <
        rateMaxRequests) ∧
    ((rateLimitCheck entry now).1 = true →
      (rateLimitCheck entry now).2 =
        (entry.getD []).filter (fun t => now - rateWindowMs < t) ++ [now]) ∧
    ((rateLimitCheck entry now).1 = false →
      (rateLimitCheck entry now).2 = entry.getD []) ∧
    (runRate none (List.replicate 20 0 ++ [0, 61000])).1 =
      List.replicate 20 true ++ [false, true] :=
  ⟨rateLimit_admit_iff entry now, rateLimit_admitted_store entry now,
   rateLimit_store_reject entry now, by decide⟩

/-- Witness for C2: a fresh client with one stored timestamp is admitted
at t=1 and the purged list plus the new timestamp is stored back. -/
theorem c2_witness :
    (rateLimitCheck (some [(0 : Int)]) 1).2 =
      ((some [(0 : Int)]).getD []).filter
        (fun t => 1 - rateWindowMs < t) ++ [1] :=
  (c2_rate_limiter_admission (some [0]) 1).2.1 (by decide)

/-- The network oracle of the C3 scenario: the first two fetches (both at
the primary endpoint) fail, every failover probe succeeds, and the third
fetch (at the fallback) returns ok data. -/
def c3Env : CallEnv :=
  { attempt := fun i _ =>
      if i < 2 then .fetchErr ⟨"TypeError", "Failed to fetch"⟩
      else .response true 200 ⟨none, "fallback answer"⟩
    probe := fun _ _ => true }

/-- C3: primary fails the first two attempts (retryCount 2), the fallback
probe succeeds and the call succeeds on the fallback: the Session
Endpoint Cache is updated to the fallback, exactly 3 attempts are made
(2 on the primary, 1 on the fallback), the call returns the fallback
response, and the status ends online. -/
theorem c3_failover_scenario :
    (callOllamaApi configRetryCount true c3Env "phi:latest" "test" {}
        ⟨some localEndpoint, .warning, ""⟩).2.1 =
      CallResult.ok ⟨none, "fallback answer"⟩ ∧
    ((callOllamaApi configRetryCount true c3Env "phi:latest" "test" {}
        ⟨some localEndpoint, .warning, ""⟩).2.2.1).cache =
      some productionEndpoint ∧
    ((callOllamaApi configRetryCount true c3Env "phi:latest" "test" {}
        ⟨some localEndpoint, .warning, ""⟩).2.2.1).status =
      StatusKind.online ∧
    (callOllamaApi configRetryCount true c3Env "phi:latest" "test" {}
        ⟨some localEndpoint, .warning, ""⟩).2.2.2 =
      [localEndpoint, localEndpoint, productionEndpoint] :=
  ⟨rfl, rfl, rfl, rfl⟩

/-- C4: for a forwarded generation request, the gateway response is the
error mapping of the upstream outcome: upstream non-2xx is propagated
with the same status and an error/message/status envelope carrying the
upstream message; request sent but no response received maps to 504
Gateway Timeout; a local failure before the send maps to 500 Internal
Server Error. -/
theorem c4_error_mapping (isProd : Bool) (entry : Option (List Int))
    (now : Int) (req : GenRequest) (upstream : UpstreamOutcome)
    (hadm : (rateLimitCheck entry now).1 = true)
    (hm : jsFalsyStr req.model = false) (hp : jsFalsyStr req.prompt = false)
    (hk : (apiEndpointsRegistry.lookup
        (jsOrStr req.endpointQuery (defaultEndpointKey isProd))).isSome =
          true) :
    (handleGenerate isProd entry now req upstream).1 = mapUpstream upstream ∧
    (handleGenerate isProd entry now req upstream).2.2 = true ∧
    (∀ st m, mapUpstream (.errResponse st (some m)) =
      ⟨st, { error := some "API Error", message := some m,
             status := some st }⟩) ∧
    mapUpstream .noResponse =
      ⟨504, { error := some "Gateway Timeout",
              message := some "The API server is not responding" }⟩ ∧
    mapUpstream .setupError =
      ⟨500, { error := some "Internal Server Error",
              message :=
                some "An error occurred while processing your request" }⟩ := by
  obtain ⟨v, hv⟩ := Option.isSome_iff_exists.mp hk
  refine ⟨?_, ?_, fun st m => rfl, rfl, rfl⟩ <;>
    simp [handleGenerate, hadm, hm, hp, hv]

/-- Witness for C4: a valid request whose upstream receives no response
is answered with the 504 mapping. -/
theorem c4_witness :
    (handleGenerate false none 0 ⟨some "m", some "p", none⟩ .noResponse).1 =
      mapUpstream .noResponse :=
  (c4_error_mapping false none 0 ⟨some "m", some "p", none⟩ .noResponse
    (by decide) (by decide) (by decide) (by decide)).1

/-- C5: an admitted request with an absent or empty model or prompt is
answered 400 Missing parameters and is not forwarded upstream; an
admitted, validated request whose resolved endpoint key is not in the
registry is answered 400 Invalid endpoint and is not forwarded.  The
handler issues at most one upstream call per request, so neither
rejection is retried. -/
theorem c5_validation_rejections (isProd : Bool) (entry : Option (List Int))
    (now : Int) (req : GenRequest) (upstream : UpstreamOutcome)
    (hadm : (rateLimitCheck entry now).1 = true) :
    ((jsFalsyStr req.model || jsFalsyStr req.prompt) = true →
      (handleGenerate isProd entry now req upstream).1 =
        ⟨400, { error := some "Missing parameters",
                message := some "Model and prompt are required" }⟩ ∧
      (handleGenerate isProd entry now req upstream).2.2 = false) ∧
    ((jsFalsyStr req.model || jsFalsyStr req.prompt) = false →
      apiEndpointsRegistry.lookup
          (jsOrStr req.endpointQuery (defaultEndpointKey isProd)) = none →
      (handleGenerate isProd entry now req upstream).1.status = 400 ∧
      (handleGenerate isProd entry now req upstream).1.body.error =
        some "Invalid endpoint" ∧
      (handleGenerate isProd entry now req upstream).2.2 = false) := by
  constructor
  · intro hbad
    constructor <;> simp [handleGenerate, hadm, hbad]
  · intro hgood hnone
    refine ⟨?_, ?_, ?_⟩ <;> simp [handleGenerate, hadm, hgood, hnone]

/-- Witness for C5: a request with an absent model is rejected with 400
Missing parameters and not forwarded. -/
theorem c5_witness :
    (handleGenerate false none 0 ⟨none, some "p", none⟩ .noResponse).1 =
      ⟨400, { error := some "Missing parameters",
              message := some "Model and prompt are required" }⟩ ∧
    (handleGenerate false none 0 ⟨none, some "p", none⟩ .noResponse).2.2 =
      false :=
  (c5_validation_rejections false none 0 ⟨none, some "p", none⟩ .noResponse
    (by decide)).1 (by decide)

/-- Counterexample to C6 as stated: a client whose stored list still
contains a timestamp (0) older than the window is rejected at t=70000,
and the stored list is left unchanged, so the out-of-window entry is not
purged on a rejected admission check. -/
theorem c6_counterexample :
    (rateLimitCheck (some (0 :: List.replicate 20 (65000 : Int))) 70000).1 =
      false ∧
    (rateLimitCheck (some (0 :: List.replicate 20 (65000 : Int))) 70000).2 =
      0 :: List.replicate 20 (65000 : Int) ∧
    ¬ (∀ t ∈ (rateLimitCheck (some (0 :: List.replicate 20 (65000 : Int)))
          70000).2, 70000 - rateWindowMs < t) := by decide

/-- C6 amended: after an admission check the stored timestamp sequence
contains only timestamps within the window when the request was admitted;
on rejection the middleware stores nothing back, so the previous sequence
(possibly containing out-of-window entries) is kept unchanged. -/
theorem c6_amended_purge (entry : Option (List Int)) (now : Int) :
    ((rateLimitCheck entry now).1 = true →
      ∀ t ∈ (rateLimitCheck entry now).2, now - rateWindowMs < t) ∧
    ((rateLimitCheck entry now).1 = false →
      (rateLimitCheck entry now).2 = entry.getD []) := by
  constructor
  · intro h t ht
    rw [rateLimit_admitted_store entry now h] at ht
    rcases List.mem_append.mp ht with h1 | h1
    · exact of_decide_eq_true (List.mem_filter.mp h1).2
    · rw [List.mem_singleton.mp h1]
      have hw : rateWindowMs = 60000 := rfl
      omega
  · exact rateLimit_store_reject entry now

/-- Witness for C6 amended: a full window is rejected and the stored list
is unchanged. -/
theorem c6_witness :
    (rateLimitCheck (some (List.replicate 20 (0 : Int))) 0).2 =
      (some (List.replicate 20 (0 : Int))).getD [] :=
  (c6_amended_purge (some (List.replicate 20 (0 : Int))) 0).2 (by decide)

/-- C7: tryNextEndpoint probes the fallback endpoints (every registry
entry except the cached one) in registry order; the first one whose probe
succeeds becomes the new cached endpoint and is returned (having probed
exactly the failing prefix and the winner); if none succeeds, the cache
is left unchanged and the original cached endpoint is returned, all
fallbacks having been probed. -/
theorem c7_fallback_order (isLocal : Bool) (probe : String → Bool)
    (s : ApiState) (e0 : String) (hc : s.cache = some e0) (he : e0 ≠ "") :
    (∀ e, (endpointsList.filter (fun x => x ≠ e0)).find? probe = some e →
      tryNextEndpoint isLocal probe s =
        (e, { s with cache := some e },
         (endpointsList.filter (fun x => x ≠ e0)).takeWhile
           (fun x => !probe x) ++ [e])) ∧
    ((endpointsList.filter (fun x => x ≠ e0)).find? probe = none →
      tryNextEndpoint isLocal probe s =
        (e0, s, endpointsList.filter (fun x => x ≠ e0))) := by
  constructor
  · intro e hfind
    rw [tryNextEndpoint_eq isLocal probe s e0 hc he]
    simp only [hfind]
  · intro hfind
    rw [tryNextEndpoint_eq isLocal probe s e0 hc he]
    simp only [hfind]

/-- Witness for C7: with local cached and an always-succeeding probe, the
production endpoint wins, is cached, and was the only endpoint probed. -/
theorem c7_witness :
    tryNextEndpoint true (fun _ => true) ⟨some localEndpoint, .online, ""⟩ =
      (productionEndpoint,
       ⟨some productionEndpoint, .online, ""⟩,
       [productionEndpoint]) :=
  (c7_fallback_order true (fun _ => true) ⟨some localEndpoint, .online, ""⟩
    localEndpoint rfl (by decide)).1 productionEndpoint (by decide)

/-- C8: checkApiStatus catches every failure (the model is a total
function, mirroring that the source never rethrows to its caller): a
probe that times out (AbortError) ends with status offline whatever the
prior state and returns false; a probe whose response is ok ends with
status online and returns true. -/
theorem c8_probe_status (isLocal : Bool) (probeNext : String → Bool)
    (s : ApiState) (msg : String) :
    (checkApiStatus isLocal (.jsError "AbortError" msg) probeNext s).1 =
      false ∧
    ((checkApiStatus isLocal (.jsError "AbortError" msg) probeNext
        s).2).status = StatusKind.offline ∧
    (checkApiStatus isLocal (.response true) probeNext s).1 = true ∧
    ((checkApiStatus isLocal (.response true) probeNext s).2).status =
      StatusKind.online := by
  refine ⟨rfl, ?_, rfl, rfl⟩
  show ((tryNextEndpoint isLocal probeNext
      (updateConnectionStatus .offline "Connection Timeout"
        (updateConnectionStatus .warning "Checking API..."
          (getApiEndpoint isLocal s).2))).2.1).status = StatusKind.offline
  rw [(tryNextEndpoint_status _ _ _).1]
  rfl

/-- C9: callOllamaApi substitutes the option defaults whenever the
supplied value is falsy, not only when it is absent: temperature 0 (a
value inside the permitted range, 0 being between 0 and 2) is replaced by
0.7, and likewise top_p 0 by 0.9, max_tokens 0 by 5000; stream defaults
to false. -/
theorem c9_option_defaults (retryCount : Nat) (isLocal : Bool)
    (env : CallEnv) (model prompt : String) (options : CallOptions)
    (s : ApiState) :
    (options.temperature = some 0 ∨ options.temperature = none →
      ((callOllamaApi retryCount isLocal env model prompt options
          s).1).temperature = 7/10) ∧
    (options.top_p = some 0 ∨ options.top_p = none →
      ((callOllamaApi retryCount isLocal env model prompt options
          s).1).top_p = 9/10) ∧
    (options.max_tokens = some 0 ∨ options.max_tokens = none →
      ((callOllamaApi retryCount isLocal env model prompt options
          s).1).max_tokens = 5000) ∧
    (options.stream = some false ∨ options.stream = none →
      ((callOllamaApi retryCount isLocal env model prompt options
          s).1).stream = false) ∧
    ((0 : ℚ) ≤ 0 ∧ (0 : ℚ) ≤ 2) := by
  refine ⟨?_, ?_, ?_, ?_, by norm_num⟩ <;>
    rintro (h | h) <;>
      simp [callOllamaApi, buildRequestBody, jsOrNum, jsOrBool, h]

/-- Witness for C9: a caller passing temperature 0 gets 0.7 sent. -/
theorem c9_witness :
    ((callOllamaApi 2 true c1Env "m" "p" { temperature := some 0 }
        ⟨none, .warning, ""⟩).1).temperature = 7/10 :=
  (c9_option_defaults 2 true c1Env "m" "p" { temperature := some 0 }
    ⟨none, .warning, ""⟩).1 (Or.inl rfl)

/-- C10: the rate limiter runs before validation on POST /api/generate,
so every admitted request has its timestamp appended to the client
window, whatever happens afterwards — in particular also when the
request is then rejected with 400 for a missing model or prompt, or with
400 for an unknown endpoint key: invalid requests consume rate-limit
quota. -/
theorem c10_rate_before_validation (isProd : Bool)
    (entry : Option (List Int)) (now : Int) (req : GenRequest)
    (upstream : UpstreamOutcome)
    (hadm : (rateLimitCheck entry now).1 = true) :
    ((handleGenerate isProd entry now req upstream).2.1 =
      (entry.getD []).filter (fun t => now - rateWindowMs < t) ++ [now]) ∧
    ((jsFalsyStr req.model || jsFalsyStr req.prompt) = true →
      (handleGenerate isProd entry now req upstream).1 =
        ⟨400, { error := some "Missing parameters",
                message := some "Model and prompt are required" }⟩) ∧
    ((jsFalsyStr req.model || jsFalsyStr req.prompt) = false →
      apiEndpointsRegistry.lookup
          (jsOrStr req.endpointQuery (defaultEndpointKey isProd)) = none →
      (handleGenerate isProd entry now req upstream).1.status = 400 ∧
      (handleGenerate isProd entry now req upstream).1.body.error =
        some "Invalid endpoint") := by
  have hstore := rateLimit_admitted_store entry now hadm
  refine ⟨?_, ?_, ?_⟩
  · rw [← hstore]
    unfold handleGenerate
    by_cases hbad : (jsFalsyStr req.model || jsFalsyStr req.prompt) = true
    · simp [hadm, hbad]
    · simp only [Bool.not_eq_true] at hbad
      cases hl : apiEndpointsRegistry.lookup
          (jsOrStr req.endpointQuery (defaultEndpointKey isProd)) <;>
        simp [hadm, hbad, hl]
  · intro hbad
    simp [handleGenerate, hadm, hbad]
  · intro hgood hnone
    constructor <;> simp [handleGenerate, hadm, hgood, hnone]

/-- Witness for C10: a valid-looking request with an unknown endpoint
key, admitted at t=0 on an empty window, still has its timestamp stored
although it is rejected 400 without being forwarded. -/
theorem c10_witness :
    (handleGenerate false none 0 ⟨some "m", some "p", some "nope"⟩
        .noResponse).2.1 =
      ((none : Option (List Int)).getD []).filter
        (fun t => 0 - rateWindowMs < t) ++ [0] :=
  (c10_rate_before_validation false none 0 ⟨some "m", some "p", some "nope"⟩
    .noResponse (by decide)).1

/-- Witness for C8: a concrete timed-out probe returns false. -/
theorem c8_witness :
    (checkApiStatus true (.jsError "AbortError" "timeout") (fun _ => false)
        ⟨none, .online, ""⟩).1 = false :=
  (c8_probe_status true (fun _ => false) ⟨none, .online, ""⟩ "timeout").1
